import Mathlib

/-!
Verification of the EPO OPS MCP server (`src/server.py`) against its
natural-language specification.

The development shallowly embeds the parts of `server.py` that the claims
are about:

* the XML normalizer `_xml_to_dict` (lines 110–139),
* the response decoder `_parse_xml_response` / the content-type dispatch in
  `make_request` (lines 87–108),
* the token exchange `get_auth_token` (lines 57–72) and the
  `authenticate_ops` tool (lines 186–199),
* the tool-dispatch envelopes of `search_patents` (lines 230–247) and
  `get_patent_biblio` (lines 266–281).

Python values that flow through these functions (strings, dicts, lists,
booleans, `None`) are modelled by the inductive `PyVal`; Python dicts are
modelled as insertion-ordered association lists.  External collaborators
(the XML parser `ET.fromstring`, the HTTP client, `response.json()`) are
modelled as parameters or small outcome types, so every theorem quantifies
over their behaviour.
-/

/-- A Python value as it appears in the normalizer's output: a string, a
boolean, `None`, a list, or a dict (modelled as an insertion-ordered
association list from string keys). -/
inductive PyVal where
  | vStr (s : String)
  | vBool (b : Bool)
  | vNone
  | vList (xs : List PyVal)
  | vDict (kvs : List (String × PyVal))

/-- An XML element as produced by `xml.etree.ElementTree`: a tag, an
attribute dict, optional direct text, and the ordered list of children. -/
inductive Element where
  | mk (tag : String) (attrib : List (String × String)) (text : Option String)
      (children : List Element)

/-- The element's tag name (`child.tag` in the source). -/
def Element.tag : Element → String
  | .mk t _ _ _ => t

/-- Model of Python's whitespace set for `str.strip()` (space, tab,
newline, carriage return, vertical tab, form feed). -/
def isPySpace (c : Char) : Bool :=
  c = ' ' || c = '\t' || c = '\n' || c = '\r' || c = '\x0b' || c = '\x0c'

/-- Model of Python's `str.strip()`: drop leading and trailing whitespace
characters. -/
def pyStrip (s : String) : String :=
  String.mk (((s.toList.dropWhile isPySpace).reverse.dropWhile isPySpace).reverse)

/-- Model of Python's `str.startswith(pre)`: the first `pre.length`
characters of `s` are exactly `pre` (case-sensitive). -/
def pyStartsWith (s pre : String) : Bool :=
  s.toList.take pre.toList.length == pre.toList

/-- Truthiness of `element.text and element.text.strip()` (line 119 of the
source): the text is present, non-empty, and non-blank after stripping. -/
def textIsTruthy : Option String → Bool
  | none => false
  | some s => !(s == "") && !(pyStrip s == "")

/-- Model of `element.text.strip()` with `None` mapped to `""` (only consulted on
truthy text). -/
def trimmedText : Option String → String
  | none => ""
  | some s => pyStrip s

/-- Lines 115–116: `result["@attributes"] = element.attrib` when the
attribute dict is truthy (non-empty). -/
def attrsPart (attrib : List (String × String)) : List (String × PyVal) :=
  if attrib = [] then []
  else [("@attributes", PyVal.vDict (attrib.map (fun p => (p.1, PyVal.vStr p.2))))]

/-- Lines 112–122 before the child loop: the `result` dict holding
`"@attributes"` and, when text is truthy and children exist, `"#text"`. -/
def baseResult (attrib : List (String × String)) (text : Option String) :
    List (String × PyVal) :=
  if textIsTruthy text then
    attrsPart attrib ++ [("#text", PyVal.vStr (trimmedText text))]
  else attrsPart attrib

/-- Lines 129–134: merge one child's value into the `children` dict.  If the
tag is new it is appended; if present and not already a Python list, the
prior value is promoted to a two-element list before the new value is
appended; if already a list, the new value is appended in place. -/
def updateAssoc : List (String × PyVal) → String → PyVal → List (String × PyVal)
  | [], tag, v => [(tag, v)]
  | (k, w) :: rest, tag, v =>
    if k = tag then
      (k, (match w with
           | .vList xs => PyVal.vList (xs ++ [v])
           | w => PyVal.vList [w, v])) :: rest
    else (k, w) :: updateAssoc rest tag v

/-- Python `dict` assignment `d[k] = v`: replace in place when the key
exists, otherwise append. -/
def setKey : List (String × PyVal) → String → PyVal → List (String × PyVal)
  | [], k, v => [(k, v)]
  | (k', w) :: rest, k, v =>
    if k' = k then (k', v) :: rest else (k', w) :: setKey rest k v

/-- Python `result.update(children)` (line 137): set each key of `children`
into `result` in order. -/
def dictUpdate (base upd : List (String × PyVal)) : List (String × PyVal) :=
  upd.foldl (fun acc kv => setKey acc kv.1 kv.2) base

/-- Lines 136–139: merge the children dict into `result` and apply
`return result if result else None`. -/
def mkResult (base childrenAcc : List (String × PyVal)) : PyVal :=
  if (dictUpdate base childrenAcc).isEmpty then PyVal.vNone
  else PyVal.vDict (dictUpdate base childrenAcc)

mutual
/-- The normalizer `_xml_to_dict` (lines 110–139 of the source): attributes, then the
leaf short-circuit `return element.text.strip()` when text is truthy and
there are no children, else the `result` dict built from attributes,
`"#text"`, and the merged children. -/
def xmlToDict : Element → PyVal
  | .mk _ attrib text children =>
    if textIsTruthy text && children.isEmpty then
      PyVal.vStr (trimmedText text)
    else
      mkResult (baseResult attrib text) (xmlChildren children [])

/-- The child loop of `_xml_to_dict` (lines 125–134): fold every child into
the `children` dict with `updateAssoc`, in document order. -/
def xmlChildren : List Element → List (String × PyVal) → List (String × PyVal)
  | [], acc => acc
  | c :: rest, acc => xmlChildren rest (updateAssoc acc c.tag (xmlToDict c))
end

/-- The wrapper `_parse_xml_response` (lines 95–108): parse, normalize, and wrap a bare
string as `{"text_content": ...}`, `None` as `{"empty": True}`; a parse
failure becomes the passthrough `{"raw_xml": ...}`.  The external parser
`ET.fromstring` is a parameter returning `none` exactly when it raises
`ET.ParseError`. -/
def parseXmlResponse (parse : String → Option Element) (xmlContent : String) : PyVal :=
  match parse xmlContent with
  | none => PyVal.vDict [("raw_xml", PyVal.vStr xmlContent)]
  | some root =>
    match xmlToDict root with
    | PyVal.vStr s => PyVal.vDict [("text_content", PyVal.vStr s)]
    | PyVal.vNone => PyVal.vDict [("empty", PyVal.vBool true)]
    | r => r

/-- The content-type dispatch of `make_request` (lines 87–90): bodies whose
declared content type starts with the literal `"application/xml"` go to
`_parse_xml_response`; everything else is returned as
`{"raw_content": ...}`. -/
def decodeResponse (parse : String → Option Element) (contentType body : String) : PyVal :=
  if pyStartsWith contentType "application/xml" then parseXmlResponse parse body
  else PyVal.vDict [("raw_content", PyVal.vStr body)]

/-- Dict lookup on the association-list model (`child.tag in children` /
`children[child.tag]`). -/
def lookupKey : List (String × PyVal) → String → Option PyVal
  | [], _ => none
  | (k, v) :: rest, t => if k = t then some v else lookupKey rest t

/-- One step of the lazy collapse of `updateAssoc` at a fixed key: an absent
entry becomes the value, an existing list gets the value appended, and an
existing non-list is promoted to a two-element list. -/
def pushVal : Option PyVal → PyVal → Option PyVal
  | none, v => some v
  | some (.vList xs), v => some (PyVal.vList (xs ++ [v]))
  | some w, v => some (PyVal.vList [w, v])

/-- The collapsed form of the values sharing one tag: absent for zero
occurrences, the bare value for one, and an ordered list for two or more. -/
def collapse : List PyVal → Option PyVal
  | [] => none
  | [v] => some v
  | v :: w :: rest => some (PyVal.vList (v :: w :: rest))

/-- The normalized values of the children carrying tag `t`, in document
order. -/
def tagVals (t : String) (children : List Element) : List PyVal :=
  (children.filter (fun c => c.tag = t)).map xmlToDict

/-- Is this value a Python `list`?  (`isinstance(..., list)` on line 130.) -/
def PyVal.isAList : PyVal → Bool
  | .vList _ => true
  | _ => false

/-! ## Authenticated client and tool layer -/

/-- The outcome of the token-exchange POST in `get_auth_token` (lines
62–67): either the HTTP library returns a response with a status and body,
or it raises a transport-level `httpx.HTTPError` carrying a message. -/
inductive TokenPost where
  | response (status : Nat) (body : String)
  | transportError (msg : String)

/-- How a call of `get_auth_token` terminates: a token, a raised `OPSError`
(the `except httpx.HTTPError` arm on lines 71–72), or some other exception
propagating unwrapped (JSON decode failure, missing key). -/
inductive AuthResult where
  | ok (token : String)
  | opsError (msg : String)
  | uncaught (msg : String)

/-- Modelled from the HTTP library: the text of the `httpx.HTTPStatusError`
raised by `response.raise_for_status()` for a non-2xx status; the model
keeps only that it spells out the status and the request URL. -/
def statusErrorMessage (status : Nat) : String :=
  "HTTP Error " ++ toString status ++ " for url https://ops.epo.org/3.2/auth/accesstoken"

/-- String-valued lookup in a decoded JSON object
(`token_data["access_token"]` on line 70; `none` models a raised
`KeyError`). -/
def lookupStr : List (String × String) → String → Option String
  | [], _ => none
  | (k, v) :: rest, t => if k = t then some v else lookupStr rest t

/-- The token exchange `get_auth_token` (lines 57–72): POST the credentials; a transport error
is wrapped into `OPSError`; `raise_for_status()` raises for any non-2xx
status and that too is wrapped into `OPSError`; on a 2xx response the body
is JSON-decoded (`json` is the external decoder, `none` models a raised
`JSONDecodeError`) and the `"access_token"` field is read — both of those
failures escape the `except httpx.HTTPError` clause unwrapped. -/
def getAuthToken (post : TokenPost)
    (json : String → Option (List (String × String))) : AuthResult :=
  match post with
  | .transportError msg => .opsError ("Erreur d'authentification: " ++ msg)
  | .response status body =>
    if 200 ≤ status ∧ status < 300 then
      match json body with
      | none => .uncaught "json.decoder.JSONDecodeError"
      | some tokenData =>
        match lookupStr tokenData "access_token" with
        | some tok => .ok tok
        | none => .uncaught "KeyError: access_token"
    else .opsError ("Erreur d'authentification: " ++ statusErrorMessage status)

/-- The state of the `OPSClient` instance held in the global `ops_client`:
the claims only consult its optional bearer token (`self.access_token`,
line 42). -/
structure OPSClient where
  accessToken : Option String

/-- The tool `authenticate_ops` (lines 186–199) as a transition on the global
`ops_client`: the global is first overwritten with a token-less
`OPSClient()` (line 189), then the token exchange runs; on success the
global becomes a client carrying the token, while on any exception the
`except` clause returns an error string and the token-less client from
line 189 stays in the global. -/
def authenticateOps (post : TokenPost)
    (json : String → Option (List (String × String)))
    (_g : Option OPSClient) : Option OPSClient × String :=
  match getAuthToken post json with
  | .ok tok => (some ⟨some tok⟩, "Authentification réussie ! Token obtenu et configuré.")
  | .opsError msg => (some ⟨none⟩, "Erreur d'authentification: " ++ msg)
  | .uncaught msg => (some ⟨none⟩, "Erreur d'authentification: " ++ msg)

/-- The fixed not-authenticated message every tool returns when the global
`ops_client` is unset (e.g. line 232). -/
def notAuthenticatedMsg : String :=
  "Veuillez d'abord vous authentifier avec authenticate_ops()"

/-- How a call of `make_request` terminates, as seen by a tool: a decoded
value, or any raised exception carrying a message (caught by the tool's
`except Exception`). -/
inductive FetchOutcome where
  | ok (v : PyVal)
  | exc (msg : String)

/-- The tool `search_patents` (lines 203–247): the `if not ops_client` guard, the
endpoint selection, the call of `make_request` (the external `fetch`), and
the success/error envelopes. -/
def searchPatents (g : Option OPSClient)
    (fetch : String → List (String × String) → FetchOutcome)
    (query constituent rangeParam : String) : PyVal :=
  match g with
  | none => PyVal.vDict [("error", PyVal.vStr notAuthenticatedMsg)]
  | some _ =>
    match fetch
        (if constituent ≠ "biblio" then "/published-data/search/" ++ constituent
         else "/published-data/search")
        [("q", query), ("Range", rangeParam)] with
    | .ok r => PyVal.vDict [("query", PyVal.vStr query),
        ("constituent", PyVal.vStr constituent),
        ("range", PyVal.vStr rangeParam), ("results", r)]
    | .exc msg => PyVal.vDict [("error", PyVal.vStr msg)]

/-- The tool `get_patent_biblio` (lines 250–281): the same guard and envelopes
around a GET of the biblio endpoint. -/
def getPatentBiblio (g : Option OPSClient)
    (fetch : String → List (String × String) → FetchOutcome)
    (referenceType referenceFormat number : String) : PyVal :=
  match g with
  | none => PyVal.vDict [("error", PyVal.vStr notAuthenticatedMsg)]
  | some _ =>
    match fetch
        ("/published-data/" ++ referenceType ++ "/" ++ referenceFormat ++ "/"
          ++ number ++ "/biblio") [] with
    | .ok r => PyVal.vDict [("reference_type", PyVal.vStr referenceType),
        ("reference_format", PyVal.vStr referenceFormat),
        ("number", PyVal.vStr number), ("biblio_data", r)]
    | .exc msg => PyVal.vDict [("error", PyVal.vStr msg)]

/-! ## Shape lemmas for the normalizer -/

/-- The normalizer `_xml_to_dict` only ever returns a string, `None`, or a dict — never a
Python list or boolean. -/
theorem xmlToDict_shape (e : Element) :
    (∃ s, xmlToDict e = PyVal.vStr s) ∨ xmlToDict e = PyVal.vNone ∨
      ∃ kvs, xmlToDict e = PyVal.vDict kvs := by
  cases e with
  | mk t a tx ch =>
    simp only [xmlToDict]
    split
    · exact Or.inl ⟨_, rfl⟩
    · unfold mkResult
      split
      · exact Or.inr (Or.inl rfl)
      · exact Or.inr (Or.inr ⟨_, rfl⟩)

/-- A child's normalized value is never a Python list, so the
`isinstance(..., list)` promotion on line 130 fires exactly on values that
the loop itself created. -/
theorem xmlToDict_not_aList (e : Element) : (xmlToDict e).isAList = false := by
  rcases xmlToDict_shape e with ⟨s, h⟩ | h | ⟨kvs, h⟩ <;> simp [h, PyVal.isAList]

/-! ## The lazy collapse of repeated tags -/

theorem lookupKey_updateAssoc_self (l : List (String × PyVal)) (t : String) (v : PyVal) :
    lookupKey (updateAssoc l t v) t = pushVal (lookupKey l t) v := by
  induction l with
  | nil => simp [updateAssoc, lookupKey, pushVal]
  | cons kv rest ih =>
    obtain ⟨k, w⟩ := kv
    by_cases hk : k = t
    · subst hk
      cases w <;> simp [updateAssoc, lookupKey, pushVal]
    · simp [updateAssoc, lookupKey, hk, ih]

theorem lookupKey_updateAssoc_ne (l : List (String × PyVal)) (s t : String) (v : PyVal)
    (h : s ≠ t) : lookupKey (updateAssoc l s v) t = lookupKey l t := by
  induction l with
  | nil => simp [updateAssoc, lookupKey, h]
  | cons kv rest ih =>
    obtain ⟨k, w⟩ := kv
    by_cases hk : k = s
    · subst hk; simp [updateAssoc, lookupKey, h]
    · by_cases hkt : k = t <;> simp [updateAssoc, lookupKey, hk, hkt, ih, Ne.symm h]

theorem tagVals_cons (t : String) (c : Element) (rest : List Element) :
    tagVals t (c :: rest) =
      if c.tag = t then xmlToDict c :: tagVals t rest else tagVals t rest := by
  by_cases hc : c.tag = t <;> simp [tagVals, List.filter_cons, hc]

/-- The entry of the `children` dict at tag `t` after the whole loop is the
fold of `pushVal` over the tag's values, starting from the entry in the
initial accumulator. -/
theorem lookupKey_xmlChildren (children : List Element) (acc : List (String × PyVal))
    (t : String) :
    lookupKey (xmlChildren children acc) t
      = (tagVals t children).foldl pushVal (lookupKey acc t) := by
  induction children generalizing acc with
  | nil => simp [xmlChildren, tagVals]
  | cons c rest ih =>
    simp only [xmlChildren]
    rw [ih, tagVals_cons]
    by_cases hc : c.tag = t
    · rw [if_pos hc, List.foldl_cons, ← hc, lookupKey_updateAssoc_self]
    · rw [if_neg hc, lookupKey_updateAssoc_ne _ _ _ _ hc]

theorem pushVal_not_aList (v w : PyVal) (h : v.isAList = false) :
    pushVal (some v) w = some (PyVal.vList [v, w]) := by
  cases v <;> simp_all [pushVal, PyVal.isAList]

theorem foldl_pushVal_vList (rest xs : List PyVal) :
    rest.foldl pushVal (some (PyVal.vList xs)) = some (PyVal.vList (xs ++ rest)) := by
  induction rest generalizing xs with
  | nil => simp
  | cons r rest ih =>
    rw [List.foldl_cons]
    show rest.foldl pushVal (some (PyVal.vList (xs ++ [r]))) = _
    rw [ih]; simp

/-- Folding the collapse step from an absent entry over non-list values is
exactly `collapse`. -/
theorem foldl_pushVal_none (vs : List PyVal) (h : ∀ v ∈ vs, v.isAList = false) :
    vs.foldl pushVal none = collapse vs := by
  match vs with
  | [] => rfl
  | [v] => rfl
  | v :: w :: rest =>
    have hv : v.isAList = false := h v (by simp)
    rw [List.foldl_cons, List.foldl_cons]
    show rest.foldl pushVal (pushVal (some v) w) = _
    rw [pushVal_not_aList v w hv, foldl_pushVal_vList]
    rfl

/-- When `element.text and element.text.strip()` is falsy, `_xml_to_dict`
takes the attributes-and-children path with no `"#text"` entry. -/
theorem xmlToDict_text_falsy (tag : String) (attrib : List (String × String))
    (text : Option String) (children : List Element) (h : textIsTruthy text = false) :
    xmlToDict (.mk tag attrib text children)
      = mkResult (attrsPart attrib) (xmlChildren children []) := by
  simp [xmlToDict, h, baseResult]

/-! ## Claims -/

/-- C1: for every XML element that has non-blank direct text and zero
children, `_xml_to_dict` returns the trimmed text directly as a string —
whether or not the element has attributes, so attributes do not appear in
the output in that case. -/
theorem leaf_text_short_circuit (tag : String) (attrib : List (String × String))
    (t : String) (h : pyStrip t ≠ "") :
    xmlToDict (.mk tag attrib (some t) []) = PyVal.vStr (pyStrip t) := by
  have ht : t ≠ "" := by
    intro he
    subst he
    exact h (by decide)
  simp [xmlToDict, textIsTruthy, trimmedText, ht, h]

/-- Witness for C1 at `<a id="1">Hello</a>`: the attribute is present and
the result is the bare string. -/
theorem leaf_text_short_circuit_witness :
    pyStrip "Hello" ≠ "" ∧
      xmlToDict (.mk "a" [("id", "1")] (some "Hello") []) = PyVal.vStr (pyStrip "Hello") :=
  ⟨by decide, leaf_text_short_circuit "a" [("id", "1")] "Hello" (by decide)⟩

/-- C2: the spec's invariant says attributes, text, and children are always
preserved or explicitly folded into the canonical value.  At the concrete
input `<a id="1">x</a>` the code returns the bare string `"x"` — not a
Mapping — so the attribute `id="1"` is silently dropped, contradicting the
invariant (the spec itself flags this leaf short-circuit as a latent
defect). -/
theorem attribute_dropped_on_text_leaf :
    xmlToDict (.mk "a" [("id", "1")] (some "x") []) = PyVal.vStr "x"
      ∧ ∀ kvs, xmlToDict (.mk "a" [("id", "1")] (some "x") []) ≠ PyVal.vDict kvs := by
  have h : xmlToDict (.mk "a" [("id", "1")] (some "x") []) = PyVal.vStr "x" := by
    simp +decide [xmlToDict, textIsTruthy, trimmedText]
  exact ⟨h, fun kvs hk => by rw [h] at hk; cases hk⟩

/-- C3: the children's dict entry for tag `t` is the lazy collapse of that
tag's normalized values in document order — absent for zero occurrences,
the bare value for exactly one (never a list, since a child's value is
never a Python list), and an ordered list of all the values for two or
more. -/
theorem repeated_tags_collapse_lazily (children : List Element) (t : String) :
    lookupKey (xmlChildren children []) t = collapse (tagVals t children)
      ∧ ∀ v ∈ tagVals t children, v.isAList = false := by
  have hnl : ∀ v ∈ tagVals t children, v.isAList = false := by
    intro v hv
    simp only [tagVals, List.mem_map] at hv
    obtain ⟨c, _, rfl⟩ := hv
    exact xmlToDict_not_aList c
  refine ⟨?_, hnl⟩
  rw [lookupKey_xmlChildren]
  exact foldl_pushVal_none _ hnl

/-- C4: whitespace-only text is treated as absent — the element normalizes
exactly like the same element without text (so `"#text"` is never
populated and the leaf short-circuit never fires), and a childless,
attribute-less element with whitespace-only text normalizes to `None`
(the explicit empty marker), identically to a fully empty element. -/
theorem whitespace_text_is_absent (tag : String) (attrib : List (String × String))
    (t : String) (children : List Element) (h : pyStrip t = "") :
    xmlToDict (.mk tag attrib (some t) children) = xmlToDict (.mk tag attrib none children)
      ∧ xmlToDict (.mk tag [] (some t) []) = PyVal.vNone
      ∧ xmlToDict (.mk tag [] none []) = PyVal.vNone := by
  have htr : textIsTruthy (some t) = false := by simp [textIsTruthy, h]
  have htn : textIsTruthy none = false := rfl
  refine ⟨?_, ?_, ?_⟩
  · rw [xmlToDict_text_falsy _ _ _ _ htr, xmlToDict_text_falsy _ _ _ _ htn]
  · rw [xmlToDict_text_falsy _ _ _ _ htr]
    simp [mkResult, attrsPart, dictUpdate, xmlChildren]
  · rw [xmlToDict_text_falsy _ _ _ _ htn]
    simp [mkResult, attrsPart, dictUpdate, xmlChildren]

/-- Witness for C4 at `<a>   </a>`. -/
theorem whitespace_text_is_absent_witness :
    pyStrip "   " = "" ∧
      (xmlToDict (.mk "a" [] (some "   ") []) = xmlToDict (.mk "a" [] none [])
        ∧ xmlToDict (.mk "a" [] (some "   ") []) = PyVal.vNone
        ∧ xmlToDict (.mk "a" [] none []) = PyVal.vNone) :=
  ⟨by decide, whitespace_text_is_absent "a" [] "   " [] (by decide)⟩

/-- C5: when the declared content type starts with `"application/xml"` and
the parser fails, the decoder returns the passthrough `{"raw_xml": body}`;
when it does not start with the XML media type, the decoder returns
`{"raw_content": body}`; and in every case the decoder returns a dict —
a parse failure is never surfaced as an error. -/
theorem decoder_never_errors (parse : String → Option Element) (ct body : String) :
    (pyStartsWith ct "application/xml" = true → parse body = none →
        decodeResponse parse ct body = PyVal.vDict [("raw_xml", PyVal.vStr body)])
      ∧ (pyStartsWith ct "application/xml" = false →
        decodeResponse parse ct body = PyVal.vDict [("raw_content", PyVal.vStr body)])
      ∧ ∃ kvs, decodeResponse parse ct body = PyVal.vDict kvs := by
  refine ⟨?_, ?_, ?_⟩
  · intro h hp
    simp [decodeResponse, h, parseXmlResponse, hp]
  · intro h
    simp [decodeResponse, h]
  · by_cases h : pyStartsWith ct "application/xml"
    · simp only [decodeResponse, h, if_true]
      unfold parseXmlResponse
      cases hp : parse body with
      | none => exact ⟨_, rfl⟩
      | some root =>
        rcases xmlToDict_shape root with ⟨s, hs⟩ | hs | ⟨kvs, hs⟩
        · exact ⟨[("text_content", PyVal.vStr s)], by simp [hs]⟩
        · exact ⟨[("empty", PyVal.vBool true)], by simp [hs]⟩
        · exact ⟨kvs, by simp [hs]⟩
    · exact ⟨[("raw_content", PyVal.vStr body)], by simp [decodeResponse, h]⟩

/-- Witness for C5 with a failing parser on `"application/xml"` and with a
`"text/plain"` content type. -/
theorem decoder_never_errors_witness :
    decodeResponse (fun _ => none) "application/xml" "<not-xml" =
        PyVal.vDict [("raw_xml", PyVal.vStr "<not-xml")]
      ∧ decodeResponse (fun _ => none) "text/plain" "hello" =
        PyVal.vDict [("raw_content", PyVal.vStr "hello")] :=
  ⟨(decoder_never_errors (fun _ => none) "application/xml" "<not-xml").1 (by decide) rfl,
   (decoder_never_errors (fun _ => none) "text/plain" "hello").2.1 (by decide)⟩

/-- C6: a call made before any authentication attempt does short-circuit to
the fixed not-authenticated envelope — but after a failed authentication
attempt (here a 401 token exchange) the global holds the token-less client
assigned on line 189, the `if not ops_client` guard passes, and
`search_patents` proceeds to the network fetch and returns its result
instead of the not-authenticated envelope.  This contradicts the claim
that every call before a successful authentication short-circuits. -/
theorem guard_leaks_after_failed_auth :
    (∀ (fetch : String → List (String × String) → FetchOutcome) (q c r : String),
        searchPatents none fetch q c r
          = PyVal.vDict [("error", PyVal.vStr notAuthenticatedMsg)])
      ∧ (authenticateOps (.response 401 "") (fun _ => none) none).1 = some ⟨none⟩
      ∧ ∀ (v : PyVal),
          searchPatents (authenticateOps (.response 401 "") (fun _ => none) none).1
              (fun _ _ => .ok v) "ti=x" "biblio" "1-25"
            = PyVal.vDict [("query", PyVal.vStr "ti=x"),
                ("constituent", PyVal.vStr "biblio"),
                ("range", PyVal.vStr "1-25"), ("results", v)] := by
  refine ⟨fun fetch q c r => rfl, rfl, fun v => rfl⟩

/-- C7: for a token exchange failing with a non-2xx status, `get_auth_token`
raises an `OPSError` whose message spells out the underlying status; a
transport error is likewise wrapped with its cause; and after the failed
`authenticate_ops` no credential is stored in the client left in the
global. -/
theorem auth_failure_wraps_cause (json : String → Option (List (String × String)))
    (status : Nat) (body : String) (h : ¬ (200 ≤ status ∧ status < 300)) :
    (∃ pre suf, getAuthToken (.response status body) json
        = .opsError (pre ++ (toString status ++ suf)))
      ∧ (∀ msg, getAuthToken (.transportError msg) json
        = .opsError ("Erreur d'authentification: " ++ msg))
      ∧ ∀ (g : Option OPSClient) (c : OPSClient),
          (authenticateOps (.response status body) json g).1 = some c →
            c.accessToken = none := by
  have hga : getAuthToken (.response status body) json
      = .opsError ("Erreur d'authentification: " ++ statusErrorMessage status) := by
    simp [getAuthToken, h]
  refine ⟨⟨"Erreur d'authentification: HTTP Error ",
      " for url https://ops.epo.org/3.2/auth/accesstoken", ?_⟩, fun msg => rfl, ?_⟩
  · rw [hga]
    unfold statusErrorMessage
    rw [String.append_assoc, ← String.append_assoc "Erreur d'authentification: "]
    simp
  · intro g c hc
    unfold authenticateOps at hc
    rw [hga] at hc
    simp only [Option.some.injEq] at hc
    rw [← hc]

/-- Witness for C7 at a 401 exchange. -/
theorem auth_failure_wraps_cause_witness :
    ¬ (200 ≤ 401 ∧ 401 < 300)
      ∧ ((∃ pre suf, getAuthToken (.response 401 "") (fun _ => none)
            = .opsError (pre ++ (toString 401 ++ suf)))
        ∧ (∀ msg, getAuthToken (.transportError msg) (fun _ => none)
            = .opsError ("Erreur d'authentification: " ++ msg))
        ∧ ∀ (g : Option OPSClient) (c : OPSClient),
            (authenticateOps (.response 401 "") (fun _ => none) g).1 = some c →
              c.accessToken = none) :=
  ⟨by decide, auth_failure_wraps_cause (fun _ => none) 401 "" (by decide)⟩

/-- C8: each tool call returns either the error envelope
`{"error": message}` or the success envelope echoing its inputs together
with the `results` / `biblio_data` key — for every authentication state and
every outcome of the underlying request, never a raised exception (modelled
by the totality of the two functions over all `FetchOutcome`s). -/
theorem tool_result_is_envelope (g : Option OPSClient)
    (fetch : String → List (String × String) → FetchOutcome)
    (q c r rt rf num : String) :
    ((∃ m, searchPatents g fetch q c r = PyVal.vDict [("error", PyVal.vStr m)])
        ∨ ∃ v, searchPatents g fetch q c r = PyVal.vDict [("query", PyVal.vStr q),
            ("constituent", PyVal.vStr c), ("range", PyVal.vStr r), ("results", v)])
      ∧ ((∃ m, getPatentBiblio g fetch rt rf num
            = PyVal.vDict [("error", PyVal.vStr m)])
        ∨ ∃ v, getPatentBiblio g fetch rt rf num
            = PyVal.vDict [("reference_type", PyVal.vStr rt),
              ("reference_format", PyVal.vStr rf), ("number", PyVal.vStr num),
              ("biblio_data", v)]) := by
  constructor
  · cases g with
    | none => exact Or.inl ⟨_, rfl⟩
    | some cl =>
      simp only [searchPatents]
      cases fetch (if c ≠ "biblio" then "/published-data/search/" ++ c
          else "/published-data/search") [("q", q), ("Range", r)] with
      | ok v => exact Or.inr ⟨v, rfl⟩
      | exc m => exact Or.inl ⟨m, rfl⟩
  · cases g with
    | none => exact Or.inl ⟨_, rfl⟩
    | some cl =>
      simp only [getPatentBiblio]
      cases fetch ("/published-data/" ++ rt ++ "/" ++ rf ++ "/" ++ num ++ "/biblio") [] with
      | ok v => exact Or.inr ⟨v, rfl⟩
      | exc m => exact Or.inl ⟨m, rfl⟩

/-- C9: the decoder's XML dispatch is a case-sensitive prefix match on the
literal `"application/xml"`: any content type that does not start with that
exact string — in particular `"text/xml"` and `"Application/XML"` — skips
the parser entirely and yields `{"raw_content": body}`. -/
theorem xml_dispatch_case_sensitive (parse : String → Option Element) (ct body : String)
    (h : pyStartsWith ct "application/xml" = false) :
    decodeResponse parse ct body = PyVal.vDict [("raw_content", PyVal.vStr body)]
      ∧ pyStartsWith "text/xml" "application/xml" = false
      ∧ pyStartsWith "Application/XML" "application/xml" = false :=
  ⟨by simp [decodeResponse, h], by decide, by decide⟩

/-- Witness for C9 at content type `"text/xml"` (with a parser that would
accept the body, showing it is not consulted). -/
theorem xml_dispatch_case_sensitive_witness :
    pyStartsWith "text/xml" "application/xml" = false
      ∧ decodeResponse (fun _ => some (.mk "a" [] none [])) "text/xml" "<a/>"
          = PyVal.vDict [("raw_content", PyVal.vStr "<a/>")] :=
  ⟨by decide, (xml_dispatch_case_sensitive (fun _ => some (.mk "a" [] none []))
      "text/xml" "<a/>" (by decide)).1⟩

/-- C10: on a 2xx token-exchange response whose body fails to JSON-decode
or lacks the `"access_token"` field, `get_auth_token` terminates with an
exception that is not an `OPSError` — the decode/key error escapes the
`except httpx.HTTPError` clause unwrapped. -/
theorem token_decode_failure_unwrapped (json : String → Option (List (String × String)))
    (status : Nat) (body : String) (h2 : 200 ≤ status ∧ status < 300)
    (hbad : json body = none
      ∨ ∃ td, json body = some td ∧ lookupStr td "access_token" = none) :
    (∃ msg, getAuthToken (.response status body) json = .uncaught msg)
      ∧ ∀ msg, getAuthToken (.response status body) json ≠ .opsError msg := by
  rcases hbad with hb | ⟨td, htd, hla⟩
  · have hg : getAuthToken (.response status body) json
        = .uncaught "json.decoder.JSONDecodeError" := by
      simp [getAuthToken, h2, hb]
    exact ⟨⟨_, hg⟩, fun msg hmsg => by rw [hg] at hmsg; cases hmsg⟩
  · have hg : getAuthToken (.response status body) json
        = .uncaught "KeyError: access_token" := by
      simp [getAuthToken, h2, htd, hla]
    exact ⟨⟨_, hg⟩, fun msg hmsg => by rw [hg] at hmsg; cases hmsg⟩

/-- Witness for C10 at a 200 response with an undecodable body. -/
theorem token_decode_failure_unwrapped_witness :
    (200 ≤ 200 ∧ 200 < 300)
      ∧ ((∃ msg, getAuthToken (.response 200 "not json") (fun _ => none) = .uncaught msg)
        ∧ ∀ msg, getAuthToken (.response 200 "not json") (fun _ => none)
            ≠ .opsError msg) :=
  ⟨by decide, token_decode_failure_unwrapped (fun _ => none) 200 "not json" (by decide)
    (Or.inl rfl)⟩

example : pyStrip "  Hello " = "Hello" := by decide
example : pyStartsWith "application/xml; charset=utf" "application/xml" = true := by decide
example : pyStartsWith "text/xml" "application/xml" = false := by decide
example : xmlToDict (.mk "a" [] (some "Hello") []) = .vStr "Hello" := by
  simp +decide [xmlToDict, textIsTruthy, pyStrip, trimmedText]
example : xmlToDict (.mk "a" [("id", "1")] none []) =
    .vDict [("@attributes", .vDict [("id", PyVal.vStr "1")])] := by
  simp +decide [xmlToDict, textIsTruthy, mkResult, baseResult, attrsPart, dictUpdate,
    xmlChildren]
example : xmlToDict (.mk "r" [] none
      [.mk "c" [] (some "1") [], .mk "c" [] (some "2") []]) =
    .vDict [("c", .vList [.vStr "1", .vStr "2"])] := by
  simp +decide [xmlToDict, xmlChildren, textIsTruthy, mkResult, baseResult, attrsPart,
    dictUpdate, updateAssoc, setKey, Element.tag, trimmedText, pyStrip]
